import Mathlib

/-!
Shallow embedding of the ClipX popup UI core (src/ui/popup.py, src/ui/animations.py,
src/ui/positioning.py, src/ui/constants.py), together with theorems checking the
natural-language specification against it.

Modelling conventions:
* The mutable attributes of the `ClipboardPopup` panel that the deletion queue,
  selection machine and list logic read or write are collected in `PopupState`.
  Items are modelled by natural-number identifiers; `_item_views` is modelled by
  its length (the code only ever compares indices against `len(self._item_views)`
  and pops one view per completed animation).
* Scheduled animation-completion timers (`NSTimer.scheduledTimerWithTimeInterval...`)
  are modelled explicitly: each call that schedules a completion block appends a
  `RemovalTimer` to `timers`; a separate `fire_next_timer` step runs the block of
  the earliest scheduled timer.  The length of `timers` is therefore the number of
  removal animations currently in flight.
* A possible exception raised by the AppKit calls inside the `try` block of
  `_animate_item_removal_queued` is modelled by the boolean parameter `fails`:
  when it is true the body raises before scheduling its completion timer and the
  `except` clause catches it, leaving every modelled attribute unchanged (the
  `try` body only touches visual state before scheduling the timer).
* Calls to the notifier callbacks (`on_delete_callback` / `_on_delete`) are
  recorded, in order, in the `processed` field; the argument recorded is the
  index passed to the callback (the pre-mutation current position).
-/

namespace ClipX

/-- Constants from src/ui/constants.py. -/
def POPUP_WIDTH : ℕ := 320

/-- Maximum popup height (src/ui/constants.py). -/
def POPUP_MAX_HEIGHT : ℕ := 400

/-- Row height of one clipboard item (src/ui/constants.py). -/
def ITEM_HEIGHT : ℕ := 76

/-- Padding unit (src/ui/constants.py). -/
def PADDING : ℕ := 8

/-- Height of the edit (control) button row (src/ui/constants.py). -/
def EDIT_BUTTON_HEIGHT : ℕ := 26

/-- Space reserved for the control row: `edit_button_space = EDIT_BUTTON_HEIGHT + PADDING`
(src/ui/popup.py line 182 and src/ui/animations.py line 210). -/
def edit_button_space : ℕ := EDIT_BUTTON_HEIGHT + PADDING

/-- Total content height of the popup for `num_items` items:
`items_height + edit_button_space + (PADDING * 3)` with `items_height = ITEM_HEIGHT * num_items`
(src/ui/popup.py lines 180-183; recomputed identically at src/ui/animations.py lines 209-212). -/
def total_content_height (num_items : ℕ) : ℕ :=
  ITEM_HEIGHT * num_items + edit_button_space + PADDING * 3

/-- Visible window height: `min(total_content_height, POPUP_MAX_HEIGHT)`
(src/ui/popup.py line 184; src/ui/animations.py line 213). -/
def visible_height (num_items : ℕ) : ℕ :=
  min (total_content_height num_items) POPUP_MAX_HEIGHT

/-- A scheduled animation-completion timer.  `isLastItem` distinguishes the
`cleanup_last_item` block (scheduled when the removal empties the list,
src/ui/animations.py lines 245-261) from the ordinary `on_animation_complete`
block (lines 385-393), which captures `removed_index` and `new_selected_index`. -/
structure RemovalTimer where
  removedIndex : ℕ
  newSelected : ℕ
  isLastItem : Bool
deriving DecidableEq

/-- Modelled mutable state of the `ClipboardPopup` panel: `_items`,
`len(_item_views)`, `_selected_index`, `_deletion_queue` (each request reduced to
its `view_index`; the stored callback and `item_index` fields are not read by the
queue logic), `_pending_deletion_views`, `_deletion_in_progress`, the scheduled
completion timers, and the record of notifier invocations. -/
structure PopupState where
  items : List ℕ
  itemViews : ℕ
  selected : ℕ
  queue : List ℕ
  pending : Finset ℕ
  inProgress : Bool
  timers : List RemovalTimer
  processed : List ℕ
deriving DecidableEq

/-- State of a popup freshly populated with `items` (after `update_items` with a
non-empty list: views rebuilt, selection on the first item, queue system idle). -/
def initial_popup_state (items : List ℕ) : PopupState :=
  { items := items
    itemViews := items.length
    selected := 1
    queue := []
    pending := ∅
    inProgress := false
    timers := []
    processed := [] }

/-- New selection after a structural resize, from src/ui/animations.py lines
219-225: `num_items == 0` gives 0 (edit button); else if
`old_selected_index - 1 >= num_items` the new last item `num_items`; else the old
selection, unchanged.  Python subtraction is over ℤ, so the comparison is stated
over ℤ. -/
def structural_resize_selection (num_items old_selected : ℕ) : ℕ :=
  if num_items = 0 then 0
  else if (num_items : ℤ) ≤ (old_selected : ℤ) - 1 then num_items
  else old_selected

/-- Embedding of `_animate_item_removal_queued` (src/ui/animations.py lines
196-396) restricted to the modelled attributes.  Out-of-range index: early
return, nothing changed (lines 201-203).  `fails = true`: the AppKit calls in
the `try` body raise before the completion timer is scheduled; the `except`
clause (lines 394-396) logs and returns, leaving the modelled state unchanged.
Otherwise: if the list became empty, `self.hide(...)` is called and
`cleanup_last_item` is scheduled (lines 237-262); else the row/window animations
start and `on_animation_complete` is scheduled, capturing `removed_index` and the
`structural_resize_selection` target (lines 264-393). -/
def animate_item_removal_queued (fails : Bool) (removed_index : ℕ) (s : PopupState) : PopupState :=
  if s.itemViews ≤ removed_index then s
  else if fails then s
  else
    let num_items := s.items.length
    let new_selected := structural_resize_selection num_items s.selected
    if num_items = 0 then
      { s with timers := s.timers ++ [⟨removed_index, 0, true⟩] }
    else
      { s with timers := s.timers ++ [⟨removed_index, new_selected, false⟩] }

/-- Embedding of the direct (old API) `_animate_item_removal` (src/ui/animations.py
lines 187-194): unconditionally set `_deletion_in_progress = True`, then run the
animation step. -/
def animate_item_removal (fails : Bool) (removed_index : ℕ) (s : PopupState) : PopupState :=
  animate_item_removal_queued fails removed_index { s with inProgress := true }

/-- Embedding of `_process_deletion_queue` (src/ui/animations.py lines 67-120),
with the recursion (the out-of-range skip at lines 84-89 calls itself) driven by
a fuel argument; `process_deletion_queue` below supplies fuel equal to the queue
length, which bounds the recursion depth exactly as in the source, where every
recursive call happens after popping one request. -/
def process_deletion_queue_go (fails : Bool) : ℕ → PopupState → PopupState
  | 0, s => s
  | fuel + 1, s =>
    match s.queue with
    | [] => s
    | view_index :: rest =>
      if s.inProgress then s
      else if s.itemViews ≤ view_index then
        process_deletion_queue_go fails fuel
          { s with queue := rest, pending := s.pending.erase view_index }
      else
        let s1 : PopupState :=
          { s with queue := rest, inProgress := true, processed := s.processed ++ [view_index] }
        let items' := if view_index < s1.items.length then s1.items.eraseIdx view_index else s1.items
        let queue' := rest.map fun q => if view_index < q then q - 1 else q
        let pending' :=
          (s.pending.erase view_index).image fun p => if view_index < p then p - 1 else p
        animate_item_removal_queued fails view_index
          { s1 with items := items', queue := queue', pending := pending' }

/-- `_process_deletion_queue` entry point: empty queue returns at once; a running
animation returns at once; otherwise pop the head request, drop it (unmarking
pending) if its index is out of range and loop, else set the in-flight flag,
invoke the notifier with the current position, delete the element from `_items`,
decrement every queued index and pending entry greater than the removed one, and
start the removal animation (src/ui/animations.py lines 67-120). -/
def process_deletion_queue (fails : Bool) (s : PopupState) : PopupState :=
  process_deletion_queue_go fails s.queue.length s

/-- Embedding of `_queue_item_deletion` (src/ui/animations.py lines 38-65):
ignore the request if the view index is already pending; otherwise mark it
pending, append the request, and start processing if no animation is running. -/
def queue_item_deletion (fails : Bool) (view_index : ℕ) (s : PopupState) : PopupState :=
  if view_index ∈ s.pending then s
  else
    let s1 : PopupState :=
      { s with pending := insert view_index s.pending, queue := s.queue ++ [view_index] }
    if s1.inProgress then s1 else process_deletion_queue fails s1

/-- Embedding of firing the earliest scheduled completion timer.
`cleanup_last_item` (src/ui/animations.py lines 245-261): pop the removed view,
reset the selection to the edit button, clear the in-flight flag, the queue and
the pending set.  `on_animation_complete` (lines 332-393): `cleanup_after_animation`
pops the removed view and installs the captured new selection, then the flag is
cleared and `_process_deletion_queue` is called. -/
def fire_next_timer (fails : Bool) (s : PopupState) : PopupState :=
  match s.timers with
  | [] => s
  | t :: rest =>
    if t.isLastItem then
      { s with
        itemViews := if t.removedIndex < s.itemViews then s.itemViews - 1 else s.itemViews
        selected := 0
        inProgress := false
        queue := []
        pending := ∅
        timers := rest }
    else
      process_deletion_queue fails
        { s with
          itemViews := if t.removedIndex < s.itemViews then s.itemViews - 1 else s.itemViews
          selected := t.newSelected
          inProgress := false
          timers := rest }

/-- Embedding of the public delete path `_delete_item_at_index` (src/ui/popup.py
lines 493-514): reject an out-of-range index; otherwise invoke `_on_delete` with
the index, delete the element from `_items`, and call the direct-API
`_animate_item_removal`. -/
def delete_item_at_index (fails : Bool) (item_index : ℕ) (s : PopupState) : PopupState :=
  if s.items.length ≤ item_index then s
  else
    animate_item_removal fails item_index
      { s with
        items := s.items.eraseIdx item_index
        processed := s.processed ++ [item_index] }

/-- Embedding of `_rebuild_item_views`' effect on the modelled attributes
(src/ui/popup.py lines 159-265): old views are cleared; with an empty list the
method returns early; otherwise one view per item is created and the selection is
set to the first item.  The deletion queue, pending set, in-flight flag and
scheduled timers are not touched. -/
def rebuild_item_views (s : PopupState) : PopupState :=
  if s.items.isEmpty then { s with itemViews := 0 }
  else { s with itemViews := s.items.length, selected := 1 }

/-- Embedding of `update_items` (src/ui/popup.py lines 153-157): cap the new list
at 50, reset the selection to 0, rebuild the views. -/
def update_items (new_items : List ℕ) (s : PopupState) : PopupState :=
  rebuild_item_views { s with items := new_items.take 50, selected := 0 }

/-!
Placement algorithm (src/ui/positioning.py).  Coordinates are modelled over ℚ
(the source uses CGFloat values combined only by addition, subtraction and
comparison).  `NSScreen` data is an input: each screen contributes its `frame`
and its `visibleFrame`.  `ElementRect` comes from the external `accessibility`
module (not part of this repository); the function reads its `x`, `y`, `height`
and `center_x` attributes, so it is modelled as a record of those four values.
-/

/-- A rectangle given by origin and size, as used for `frame()`/`visibleFrame()`. -/
structure NSRect where
  x : ℚ
  y : ℚ
  w : ℚ
  h : ℚ
deriving DecidableEq

/-- A screen, exposing its full frame and its visible frame. -/
structure Screen where
  frame : NSRect
  visibleFrame : NSRect
deriving DecidableEq

/-- The focused element's bounds in top-left-origin (AX) coordinates, with its
precomputed horizontal centre (attribute `center_x` of the external
`accessibility.ElementRect`). -/
structure ElementRect where
  x : ℚ
  y : ℚ
  height : ℚ
  center_x : ℚ
deriving DecidableEq

/-- The screen-containment test of the loop at src/ui/positioning.py lines 47-52:
the visible frame horizontally contains the element's centre x and vertically
contains the element's bottom (Cocoa) coordinate. -/
def screen_contains (s : Screen) (cx b : ℚ) : Bool :=
  decide (s.visibleFrame.x ≤ cx) && decide (cx ≤ s.visibleFrame.x + s.visibleFrame.w) &&
  decide (s.visibleFrame.y ≤ b) && decide (b ≤ s.visibleFrame.y + s.visibleFrame.h)

/-- Steps 3-4 of the placement (src/ui/positioning.py lines 59-97): candidate
positions below and above with `gap = 6`; prefer below if it fits above the
screen's minimum y; else above if its top fits under the screen's maximum y;
else pick the side with more available space and clamp the chosen candidate at
the corresponding screen edge. -/
def choose_vertical (elem_top elem_bottom screen_min_y screen_max_y popup_height : ℚ) :
    ℚ × Bool :=
  let gap : ℚ := 6
  let y_below := (elem_bottom - gap) - popup_height
  let y_above := elem_top + gap
  if screen_min_y ≤ y_below then (y_below, false)
  else if y_above + popup_height ≤ screen_max_y then (y_above, true)
  else
    let space_below := elem_bottom - screen_min_y
    let space_above := screen_max_y - elem_top
    if space_below < space_above then
      (if screen_max_y < y_above + popup_height then screen_max_y - popup_height else y_above, true)
    else
      (if y_below < screen_min_y then screen_min_y else y_below, false)

/-- Embedding of `calculate_popup_position` (src/ui/positioning.py lines 9-100):
with no screens return the fixed fallback `(100, 100, False)`; otherwise convert
the element rect to Cocoa coordinates using the primary screen's frame height,
pick the first screen whose visible frame contains the element (default:
primary), and choose the vertical position per `choose_vertical`.  The returned
x is the element's centre x. -/
def calculate_popup_position (screens : List Screen) (element_rect : ElementRect)
    (popup_height : ℚ) : ℚ × ℚ × Bool :=
  match screens with
  | [] => (100, 100, false)
  | primary_screen :: _ =>
    let primary_height := primary_screen.frame.h
    let elem_top_cocoa := primary_height - element_rect.y
    let elem_bottom_cocoa := primary_height - (element_rect.y + element_rect.height)
    let elem_center_x := element_rect.center_x
    let target_screen :=
      (screens.find? fun s => screen_contains s elem_center_x elem_bottom_cocoa).getD
        primary_screen
    let screen_min_y := target_screen.visibleFrame.y
    let screen_max_y := target_screen.visibleFrame.y + target_screen.visibleFrame.h
    let p := choose_vertical elem_top_cocoa elem_bottom_cocoa screen_min_y screen_max_y
      popup_height
    (elem_center_x, p.1, p.2)

/-- Concrete states of the C3 scenario: an eleventh item is deleted through the
queue so that its animation is in flight, which lets the three requests for
positions 5, 2 and 8 accumulate in the queue while the displayed list is exactly
the 10 items `0..9`. -/
def c3_start : PopupState := initial_popup_state (List.range 11)

/-- C3 scenario after deleting item 10 (animation in flight) and enqueueing
positions 5, 2 and 8, in that order. -/
def c3_enqueued : PopupState :=
  queue_item_deletion false 8 (queue_item_deletion false 2 (queue_item_deletion false 5
    (queue_item_deletion false 10 c3_start)))

/-- C3 scenario after the first queued request has been processed. -/
def c3_step1 : PopupState := fire_next_timer false c3_enqueued

/-- C3 scenario after the second queued request has been processed. -/
def c3_step2 : PopupState := fire_next_timer false c3_step1

/-- C3 scenario after the third queued request has been processed. -/
def c3_step3 : PopupState := fire_next_timer false c3_step2

/-- C3 scenario after the last animation completed and the queue drained. -/
def c3_finish : PopupState := fire_next_timer false c3_step3

/-- Prior state for the C4 scenario: on a three-item popup, position 0 is
deleted through the queue (its animation is in flight) and position 1 is
enqueued behind it, so the queue holds one request and one position is pending
when the full list replace happens. -/
def c4_prior_state : PopupState :=
  queue_item_deletion false 1 (queue_item_deletion false 0 (initial_popup_state [0, 1, 2]))

/-- Concrete state used to witness the C6 theorem: a three-item popup with an
animation in flight and position 2 already pending. -/
def c6_state : PopupState :=
  { items := [0, 1, 2]
    itemViews := 3
    selected := 1
    queue := []
    pending := {2}
    inProgress := true
    timers := []
    processed := [] }

end ClipX

namespace ClipX

/-- Helper: `getD` of `find?` over a one-element list is that element, whatever
the predicate decides. -/
theorem find_getD_singleton {α : Type} (p : α → Bool) (a : α) :
    (List.find? p [a]).getD a = a := by
  cases h : p a <;> simp [List.find?, h]

/-- C1: the claim says that every sequence of delete requests through the
popup's public delete interface keeps at most one deletion animation in flight,
with FIFO queuing.  The code violates it: `_delete_item_at_index` uses the
direct `_animate_item_removal` API, which sets the in-flight flag but never
consults it.  On a three-item popup, two consecutive public deletes of index 0
(before any completion timer fires) leave two removal animations in flight and
nothing queued. -/
theorem C1_public_delete_double_animation :
    (delete_item_at_index false 0 (initial_popup_state [0, 1, 2])).inProgress = true ∧
    (delete_item_at_index false 0 (initial_popup_state [0, 1, 2])).timers.length = 1 ∧
    (delete_item_at_index false 0 (delete_item_at_index false 0
        (initial_popup_state [0, 1, 2]))).timers.length = 2 ∧
    (delete_item_at_index false 0 (delete_item_at_index false 0
        (initial_popup_state [0, 1, 2]))).queue = [] := by decide

/-- C2: the claim says the deletion in-flight flag is cleared on every exit path
of a deletion-animation step.  The code violates it: when the animation step
raises (the `except` clause at src/ui/animations.py lines 394-396 only logs),
the flag set by the processing step stays set and no completion timer was
scheduled, so a later enqueued request sits in the queue forever; the
out-of-range early return of the direct API (lines 201-203) leaves the flag set
as well. -/
theorem C2_failed_animation_flag_not_cleared :
    (queue_item_deletion true 0 (initial_popup_state [0, 1, 2])).inProgress = true ∧
    (queue_item_deletion true 0 (initial_popup_state [0, 1, 2])).timers = [] ∧
    (queue_item_deletion true 1
        (queue_item_deletion true 0 (initial_popup_state [0, 1, 2]))).queue = [1] ∧
    (queue_item_deletion true 1
        (queue_item_deletion true 0 (initial_popup_state [0, 1, 2]))).inProgress = true ∧
    (animate_item_removal false 5 (initial_popup_state [0, 1, 2])).inProgress = true ∧
    (animate_item_removal false 5 (initial_popup_state [0, 1, 2])).timers = [] := by decide

/-- C3 counterexample: with requests for positions 5, 2, 8 queued in that order
on the 10-item list `0..9`, the first request processed is position 5 — the head
of the FIFO queue — not position 2, and after the first removal the queued
positions renumber to `[2, 7]`, not `[4, 7]` as the claim's trace asserts. -/
theorem C3_first_processed_is_queue_head :
    c3_enqueued.queue = [5, 2, 8] ∧ c3_enqueued.items = List.range 10 ∧
    c3_step1.processed = [10, 5] ∧ c3_step1.queue = [2, 7] ∧
    ¬ c3_step1.processed = [10, 2] ∧ ¬ c3_step1.queue = [4, 7] := by decide

/-- C3 amended: with requests for positions 5, 2, 8 queued in that order on the
10-item list `0..9`, processing is FIFO: position 5 first, then 2, then the
renumbered 6.  After removing 5 the queued `[2, 8]` renumbers to `[2, 7]`; after
removing 2 the queued `[7]` renumbers to `[6]`.  The final list is the original
minus the items at original positions 2, 5 and 8, and the queue system ends
idle. -/
theorem C3_fifo_renumbering_amended :
    c3_enqueued.queue = [5, 2, 8] ∧ c3_enqueued.items = List.range 10 ∧
    c3_step1.processed = [10, 5] ∧ c3_step1.queue = [2, 7] ∧
    c3_step2.processed = [10, 5, 2] ∧ c3_step2.queue = [6] ∧
    c3_step3.processed = [10, 5, 2, 6] ∧ c3_step3.queue = [] ∧
    c3_finish.items = (List.range 10).filter (fun i => !(i == 2 || i == 5 || i == 8)) ∧
    c3_finish.inProgress = false ∧ c3_finish.pending = ∅ := by decide

/-- C4: the claim says a full list replace resets the selection to 1 and leaves
the deletion queue and pending set empty.  The code violates the second half:
`update_items` and `_rebuild_item_views` never touch `_deletion_queue` or
`_pending_deletion_views`, so from a prior state with a queued request the
replace keeps the stale request and pending position while resetting the
selection. -/
theorem C4_update_items_leaks_queue :
    c4_prior_state.queue = [1] ∧ c4_prior_state.pending = {1} ∧
    (update_items [7, 8] c4_prior_state).selected = 1 ∧
    (update_items [7, 8] c4_prior_state).queue = [1] ∧
    (update_items [7, 8] c4_prior_state).pending = {1} := by decide

/-- C5: the selection computed after a structural resize is 0 when the new item
count is 0; the new count when the old selection minus one is at least the new
count; and the old selection otherwise.  The last conjunct checks the spec's
instance end to end: five items, selection 5, queue-deleting 0-based index 4
ends with four items and selection 4. -/
theorem C5_structural_resize_rule (newN oldSelected : ℕ) :
    (newN = 0 → structural_resize_selection newN oldSelected = 0) ∧
    (newN ≠ 0 → (newN : ℤ) ≤ (oldSelected : ℤ) - 1 →
      structural_resize_selection newN oldSelected = newN) ∧
    (newN ≠ 0 → (oldSelected : ℤ) - 1 < (newN : ℤ) →
      structural_resize_selection newN oldSelected = oldSelected) ∧
    (fire_next_timer false (queue_item_deletion false 4
        { initial_popup_state [0, 1, 2, 3, 4] with selected := 5 })).selected = 4 := by
  refine ⟨?_, ?_, ?_, by decide⟩
  · intro h
    simp [structural_resize_selection, h]
  · intro h h2
    unfold structural_resize_selection
    rw [if_neg h, if_pos h2]
  · intro h h2
    unfold structural_resize_selection
    rw [if_neg h, if_neg (not_le.mpr h2)]

/-- Witness for C5 at concrete inputs: the three branches at `(0, 3)`, `(4, 5)`
and `(4, 2)`. -/
theorem C5_structural_resize_rule_witness :
    structural_resize_selection 0 3 = 0 ∧ structural_resize_selection 4 5 = 4 ∧
    structural_resize_selection 4 2 = 2 :=
  ⟨(C5_structural_resize_rule 0 3).1 rfl,
   (C5_structural_resize_rule 4 5).2.1 (by decide) (by decide),
   (C5_structural_resize_rule 4 2).2.2.1 (by decide) (by decide)⟩

/-- C6: enqueueing a position that is already pending leaves the state
unchanged, and enqueueing the same position twice while an animation is running
(before processing) yields exactly one queued deletion: the second enqueue is
the identity and the queue gains exactly one request for that position. -/
theorem C6_duplicate_enqueue_noop (f : Bool) (p : ℕ) (s : PopupState) :
    (p ∈ s.pending → queue_item_deletion f p s = s) ∧
    (p ∉ s.pending → s.inProgress = true →
      queue_item_deletion f p (queue_item_deletion f p s) = queue_item_deletion f p s ∧
      (queue_item_deletion f p s).queue.count p = s.queue.count p + 1) := by
  constructor
  · intro h
    simp [queue_item_deletion, h]
  · intro h hrun
    have h1 : queue_item_deletion f p s =
        { s with pending := insert p s.pending, queue := s.queue ++ [p] } := by
      simp [queue_item_deletion, h, hrun]
    refine ⟨?_, ?_⟩
    · rw [h1]
      simp [queue_item_deletion]
    · rw [h1]
      simp

/-- Witness for C6 on `c6_state`: position 2 is already pending, so its enqueue
is a no-op; position 0 is fresh and an animation is running, so its double
enqueue is idempotent and adds exactly one request. -/
theorem C6_duplicate_enqueue_noop_witness :
    queue_item_deletion false 2 c6_state = c6_state ∧
    queue_item_deletion false 0 (queue_item_deletion false 0 c6_state) =
      queue_item_deletion false 0 c6_state ∧
    (queue_item_deletion false 0 c6_state).queue.count 0 = c6_state.queue.count 0 + 1 :=
  ⟨(C6_duplicate_enqueue_noop false 2 c6_state).1 (by decide),
   ((C6_duplicate_enqueue_noop false 0 c6_state).2 (by decide) rfl).1,
   ((C6_duplicate_enqueue_noop false 0 c6_state).2 (by decide) rfl).2⟩

/-- C7: for every item count the total content height is
`ITEM_HEIGHT * N + (EDIT_BUTTON_HEIGHT + PADDING) + 3 * PADDING` — row height
times N plus the control-row space plus three padding units — and the visible
window height is its truncation at `POPUP_MAX_HEIGHT`; at `N = 0` the height has
no item contribution: it is the control-row space plus the fixed padding only. -/
theorem C7_layout_heights (N : ℕ) :
    total_content_height N = ITEM_HEIGHT * N + edit_button_space + 3 * PADDING ∧
    visible_height N = min (total_content_height N) POPUP_MAX_HEIGHT ∧
    total_content_height 0 = edit_button_space + 3 * PADDING ∧
    visible_height 0 = edit_button_space + 3 * PADDING := by
  refine ⟨?_, rfl, by decide, by decide⟩
  unfold total_content_height
  ring

/-- C8: for an element at AX coordinates `y = 100`, `height = 20`, a primary
screen of height 1000 with visible frame spanning its full height, and a popup
of height 300, the placement is below: `(center_x, 574, showAbove = false)`,
whatever the element's x, centre x and the screen width. -/
theorem C8_placement_below_example (x cx w : ℚ) :
    calculate_popup_position [⟨⟨0, 0, w, 1000⟩, ⟨0, 0, w, 1000⟩⟩] ⟨x, 100, 20, cx⟩ 300 =
      (cx, 574, false) := by
  simp only [calculate_popup_position, find_getD_singleton, choose_vertical]
  norm_num

/-- C9 counterexample: screen with visible vertical bounds 0..400 (primary frame
height 1000), element at AX `y = 500`, `height = 20`, popup height 500.  Neither
candidate fits (below would start at -26, above would end at 1006), the below
side has more available space, and the clamped result `y = 0` still exceeds the
top edge: `0 + 500 > 400`, so the popup does not lie within the screen's
vertical bounds. -/
theorem C9_clamped_result_exceeds_edge :
    calculate_popup_position [⟨⟨0, 0, 800, 1000⟩, ⟨0, 0, 800, 400⟩⟩] ⟨390, 500, 20, 400⟩ 500 =
      (400, 0, false) ∧
    ¬ ((0 : ℚ) ≤ (1000 - (500 + 20)) - 6 - 500) ∧
    ¬ ((1000 - 500 : ℚ) + 6 + 500 ≤ 400) ∧
    ¬ ((0 : ℚ) + 500 ≤ 400) := by
  refine ⟨?_, by norm_num, by norm_num, by norm_num⟩
  simp only [calculate_popup_position, find_getD_singleton, choose_vertical]
  norm_num

/-- C9 amended: whenever neither candidate fits the target screen's vertical
visible bounds, placement picks the side with more available space (below on
ties) and clamps the chosen candidate at that side's far screen edge; provided
the popup is no taller than the visible bounds, the result lies within them,
exceeding neither edge. -/
theorem C9_fallback_clamped (elem_top elem_bottom smin smax ph : ℚ)
    (hb : ¬ smin ≤ elem_bottom - 6 - ph)
    (ha : ¬ elem_top + 6 + ph ≤ smax)
    (hph : ph ≤ smax - smin) :
    ((choose_vertical elem_top elem_bottom smin smax ph).2 = true ↔
      elem_bottom - smin < smax - elem_top) ∧
    smin ≤ (choose_vertical elem_top elem_bottom smin smax ph).1 ∧
    (choose_vertical elem_top elem_bottom smin smax ph).1 + ph ≤ smax := by
  by_cases hsp : elem_bottom - smin < smax - elem_top
  · have h4 : smax < elem_top + 6 + ph := not_le.mp ha
    simp only [choose_vertical, if_neg hb, if_neg ha, if_pos hsp, if_pos h4]
    exact ⟨by simp [hsp], by linarith, by linarith⟩
  · have h4 : elem_bottom - 6 - ph < smin := not_le.mp hb
    simp only [choose_vertical, if_neg hb, if_neg ha, if_neg hsp, if_pos h4]
    exact ⟨by simp [hsp], by linarith, by linarith⟩

/-- Witness for the amended C9 at screen bounds 0..400, popup height 300,
element bottom 100 and top 120: neither side fits, above has more space, and the
result is clamped to `400 - 300 = 100`, within bounds. -/
theorem C9_fallback_clamped_witness :
    (¬ (0 : ℚ) ≤ 100 - 6 - 300) ∧ (¬ (120 : ℚ) + 6 + 300 ≤ 400) ∧ ((300 : ℚ) ≤ 400 - 0) ∧
    (((choose_vertical 120 100 0 400 300).2 = true ↔ (100 - 0 : ℚ) < 400 - 120) ∧
      (0 : ℚ) ≤ (choose_vertical 120 100 0 400 300).1 ∧
      (choose_vertical 120 100 0 400 300).1 + 300 ≤ 400) :=
  ⟨by norm_num, by norm_num, by norm_num,
   C9_fallback_clamped 120 100 0 400 300 (by norm_num) (by norm_num) (by norm_num)⟩

/-- C10: with an empty screen list the placement returns the fixed fallback
`(100, 100, showAbove = false)` for every element rectangle and popup height. -/
theorem C10_no_screens_fallback (element_rect : ElementRect) (popup_height : ℚ) :
    calculate_popup_position [] element_rect popup_height = (100, 100, false) := rfl

end ClipX
